import Mathlib

/-!
# Verification of the order / market-data core of `ib_async`

This file gives a shallow embedding of `ib_async/functionality/orders.py`
(the `OrdersMixin` class) and of the market-data subscription manager, and
proves the testable properties of the specification against it.

Modelling conventions:
* Python `dict` fields of the mixin become functions `Nat → Option _`;
  `d[k] = v` becomes `mapInsert`, `d.pop(k, None)` becomes a lookup
  followed by `mapErase`.
* `asyncio.Future` objects become cells in a heap `futures : Nat → Option
  FutureState`, addressed by a model-level future id; `set_result` /
  `set_exception` write a `FutureState` value into the cell.  A resolved
  cell stores a value snapshot of the order at resolution time.
* Python floats that carry prices/quantities are modelled as `Rat`
  (the wire carries decimal text; the primitive decoder is a black box
  assumed exact, per the spec's scope section).
* Python truthiness is made explicit: `order_id` is falsy iff `0`,
  a string is falsy iff empty, a float iff zero.
-/

/-- Modelled from the spec: numeric floors of the protocol-version enum
(`ib_async/protocol_versions.py` is not part of the sources; only the
relative role of each floor as a version gate matters). -/
def ProtocolVersion.MIN_CLIENT : Nat := 100

/-- Modelled from the spec: version floor for the PEG-BENCH / order-conditions
fields of the open-order message. -/
def ProtocolVersion.PEGGED_TO_BENCHMARK : Nat := 102

/-- Modelled from the spec: version floor for the `model_code` field. -/
def ProtocolVersion.MODELS_SUPPORT : Nat := 103

/-- Modelled from the spec: version floor for the soft-dollar-tier fields. -/
def ProtocolVersion.SOFT_DOLLAR_TIER : Nat := 106

/-- Modelled from the spec: version floor for the `cash_quantity` field. -/
def ProtocolVersion.CASH_QTY : Nat := 111

/-- Modelled from the spec: version floor required for a regulatory-snapshot
market-data request. -/
def ProtocolVersion.REGULATORY_SNAPSHOT : Nat := 124

/-- Modelled from the spec: error taxonomy of `ib_async/errors.py` (not in
the sources).  `unsupportedFeature` carries the feature name, as
`UnsupportedFeature` does; `decodeError` is a fatal decode error
(read past the end of the buffer / type-parse failure). -/
inductive DecodeErr where
  | decodeError
  | unsupportedFeature (feature : String)
  deriving DecidableEq, Repr

/-- Modelled from the spec: an underlying-component record (composite field
of the open-order message), decoded by the black-box field decoder. -/
structure UnderlyingComponent where
  contract_id : Int := 0
  delta : Rat := 0
  price : Rat := 0
  deriving DecidableEq, Repr

/-- Modelled from the spec: the slice of `Instrument` the order code touches.
An instrument referenced by an order; `underlying_component` is written by
the open-order decoder when the delta-neutral contract flag is set. -/
structure Instrument where
  con_id : Nat := 0
  symbol : String := ""
  underlying_component : Option UnderlyingComponent := none
  deriving DecidableEq, Repr

/-- Modelled from the spec: the `Order` record of `ib_async/order.py` (not in
the sources).  Field names follow the attribute names assigned by
`orders.py`; every field carries its Python type default.  String-valued
enums (`Action`, `OrderType`, `TimeInForce`) are modelled as their wire
strings.  `updated_count` models the number of times the `updated`
notification event has fired for this order. -/
structure Order where
  order_id : Nat := 0
  perm_id : Int := 0
  parent_id : Int := 0
  client_id : Int := 0
  instrument : Instrument := {}
  action : String := ""
  order_type : String := ""
  total_quantity : Rat := 0
  limit_price : Rat := 0
  aux_price : Rat := 0
  time_in_force : String := ""
  status : String := ""
  filled : Rat := 0
  remaining : Rat := 0
  average_fill_price : Rat := 0
  last_fill_price : Rat := 0
  why_held : String := ""
  market_cap_price : Option Rat := none
  oca_group : String := ""
  account : String := ""
  open_close : String := ""
  origin : Int := 0
  order_ref : String := ""
  outside_regular_trading_hours : Bool := false
  hidden : Bool := false
  discretionary_amount : Rat := 0
  good_after_time : String := ""
  fa_group : String := ""
  fa_method : String := ""
  fa_percentage : String := ""
  fa_profile : String := ""
  model_code : String := ""
  good_till_date : String := ""
  rule80a : String := ""
  percent_offset : Rat := 0
  settling_firm : String := ""
  short_sale_slot : Int := 0
  designated_location : String := ""
  exempt_code : Int := 0
  auction_strategy : String := ""
  starting_price : Rat := 0
  stock_ref_price : Rat := 0
  delta : Rat := 0
  stock_range_lower : Rat := 0
  stock_range_upper : Rat := 0
  display_size : Rat := 0
  block_order : Bool := false
  sweep_to_fill : Bool := false
  all_or_none : Bool := false
  min_quantity : Rat := 0
  oca_type : Int := 0
  etrade_only : Bool := false
  firm_quote_only : Bool := false
  nbbo_price_cap : Rat := 0
  trigger_method : Int := 0
  volatility : Rat := 0
  volatility_type : Int := 0
  delta_neutral_order_type : String := ""
  delta_neutral_aux_price : Rat := 0
  delta_neutral_contract_id : Int := 0
  delta_neutral_settling_firm : String := ""
  delta_neutral_clearing_account : String := ""
  delta_neutral_clearing_intent : String := ""
  delta_neutral_open_close : String := ""
  delta_neutral_short_sale : Bool := false
  delta_neutral_short_sale_slot : Int := 0
  delta_neutral_designated_location : String := ""
  continuous_update : Bool := false
  reference_price_type : Int := 0
  trail_stop_price : Rat := 0
  trailing_percent : Rat := 0
  basis_points : Rat := 0
  basis_points_type : Int := 0
  combo_legs_description : String := ""
  smart_combo_routing_params : List (String × String) := []
  scale_init_level_size : Int := 0
  scale_subs_level_size : Int := 0
  scale_price_increment : Rat := 0
  scale_price_adjust_value : Rat := 0
  scale_price_adjust_interval : Int := 0
  scale_profit_offset : Rat := 0
  scale_auto_reset : Bool := false
  scale_init_position : Int := 0
  scale_init_fill_quantity : Int := 0
  scale_random_percent : Rat := 0
  hedge_type : String := ""
  hedge_param : String := ""
  opt_out_smart_routing : Bool := false
  clearing_account : String := ""
  clearing_intent : String := ""
  not_held : Bool := false
  algo_strategy : String := ""
  algo_parameters : List (String × String) := []
  solicited : Bool := false
  what_if : Bool := false
  inital_margin : String := ""
  maintenance_margin : String := ""
  equity_with_loan : String := ""
  commission : Rat := 0
  min_commission : Rat := 0
  max_commission : Rat := 0
  commission_currency : String := ""
  warning_text : String := ""
  randomize_size : Bool := false
  randomize_price : Bool := false
  reference_contract_id : Int := 0
  is_pegged_change_amount_decrease : Bool := false
  pegged_change_amount : Rat := 0
  reference_change_amount : Rat := 0
  reference_exchange_id : String := ""
  adjusted_order_type : String := ""
  trigger_price : Rat := 0
  limit_price_offset : Rat := 0
  adjusted_stop_price : Rat := 0
  adjusted_stop_limit_price : Rat := 0
  adjusted_trailing_amount : Rat := 0
  adjustable_trailing_unit : Int := 0
  soft_dollar_tier_name : String := ""
  soft_dollar_tier_value : String := ""
  soft_dollar_tier_display_name : String := ""
  cash_quantity : Rat := 0
  updated_count : Nat := 0

/-- A fresh `Order(...)` object: every attribute at its type default. -/
def Order.default : Order := {}

/-- Modelled from the spec: the single-resolution outcome cell behind an
`asyncio.Future`: pending, resolved with an order, or failed with an
`ApiException (code, message)`. -/
inductive FutureState where
  | pending
  | result (o : Order)
  | exception (code : Int) (msg : String)

/-- Overwriting insert into a Python-dict-like map. -/
def mapInsert {α : Type} (m : Nat → Option α) (k : Nat) (v : α) : Nat → Option α :=
  fun k' => if k' = k then some v else m k'

/-- Removal from a Python-dict-like map (the effect of `d.pop(k, None)`). -/
def mapErase {α : Type} (m : Nat → Option α) (k : Nat) : Nat → Option α :=
  fun k' => if k' = k then none else m k'

@[simp]
theorem mapInsert_self {α : Type} (m : Nat → Option α) (k : Nat) (v : α) :
    mapInsert m k v k = some v := by
  simp [mapInsert]

@[simp]
theorem mapInsert_ne {α : Type} (m : Nat → Option α) {k k' : Nat} (v : α) (h : k' ≠ k) :
    mapInsert m k v k' = m k' := by
  simp [mapInsert, h]

@[simp]
theorem mapErase_self {α : Type} (m : Nat → Option α) (k : Nat) :
    mapErase m k k = none := by
  simp [mapErase]

@[simp]
theorem mapErase_ne {α : Type} (m : Nat → Option α) {k k' : Nat} (h : k' ≠ k) :
    mapErase m k k' = m k' := by
  simp [mapErase, h]

/-- An outgoing wire message produced by the orders mixin
(`self.send_message(...)`); the payload of `PLACE_ORDER` is the order
being transmitted, `45` is the message version constant of the source. -/
inductive OutMsg where
  | placeOrder (version : Nat) (o : Order)
  | reqAllOpenOrders (version : Nat)

/-- The state of `OrdersMixin` (`orders.py`, `__init__`):
`orders` is `self.__orders`, `next_order_id` is `self._next_order_id`,
`submitted_future` is `self.__submitted_future` (mapping an order id to the
id of a future cell in the heap `futures`).  `next_fid` is model
bookkeeping for allocating fresh future cells; `sent` is the transcript of
`send_message` calls; `session_errors` is the transcript of errors handed
to the generic session error handler (`super()._handle_err_msg`, modelled
from the spec as an out-of-core collaborator that records the error). -/
structure OrdersMixin where
  orders : Nat → Option Order
  next_order_id : Nat
  submitted_future : Nat → Option Nat
  futures : Nat → Option FutureState
  next_fid : Nat
  sent : List OutMsg
  session_errors : List (Nat × Int × String)

/-- The state right after `OrdersMixin.__init__`. -/
def initClient : OrdersMixin :=
  { orders := fun _ => none
    next_order_id := 1
    submitted_future := fun _ => none
    futures := fun _ => none
    next_fid := 0
    sent := []
    session_errors := [] }

/-- The decoded arguments of an order-status push, i.e. the parameters of
`_handle_order_status` after `order_id`. -/
structure StatusArgs where
  status : String := ""
  filled : Rat := 0
  remaining : Rat := 0
  average_fill_price : Rat := 0
  perm_id : Int := 0
  parent_id : Int := 0
  last_fill_price : Rat := 0
  client_id : Int := 0
  why_held : String := ""
  market_cap_price : Option Rat := none
  deriving DecidableEq, Repr

/-- Lines 108-119 of `orders.py`: the field updates an order-status push
applies to an existing order, followed by the `order.updated(None)`
notification. -/
def applyStatus (o : Order) (a : StatusArgs) : Order :=
  { o with
    status := a.status
    filled := a.filled
    remaining := a.remaining
    average_fill_price := a.average_fill_price
    perm_id := a.perm_id
    parent_id := a.parent_id
    last_fill_price := a.last_fill_price
    client_id := a.client_id
    why_held := a.why_held
    market_cap_price := a.market_cap_price
    updated_count := o.updated_count + 1 }

/-- `OrdersMixin._handle_order_status`: if the order id is unknown the push
is ignored; otherwise the status fields are applied, `updated` fires, and
a pending placement future for that id (if any) is popped and resolved
with the order. -/
def handleOrderStatus (s : OrdersMixin) (order_id : Nat) (a : StatusArgs) : OrdersMixin :=
  match s.orders order_id with
  | none => s
  | some o =>
    let o' := applyStatus o a
    let s' := { s with orders := mapInsert s.orders order_id o' }
    match s'.submitted_future order_id with
    | none => s'
    | some fid =>
      { s' with
        submitted_future := mapErase s'.submitted_future order_id
        futures := mapInsert s'.futures fid (FutureState.result o') }

/-- `OrdersMixin._handle_next_valid_id`: the server announces the id floor. -/
def handleNextValidId (s : OrdersMixin) (next_order_id : Nat) : OrdersMixin :=
  { s with next_order_id := next_order_id }

/-- `OrdersMixin._handle_err_msg`: pop the pending placement future for the
request id; if one exists fail it with `ApiException(code, message)` and
stop, otherwise delegate to the generic session error handler. -/
def handleErrMsg (s : OrdersMixin) (request_id : Nat) (error_code : Int)
    (error_message : String) : OrdersMixin :=
  match s.submitted_future request_id with
  | some fid =>
    { s with
      submitted_future := mapErase s.submitted_future request_id
      futures := mapInsert s.futures fid (FutureState.exception error_code error_message) }
  | none =>
    { s with session_errors := s.session_errors ++ [(request_id, error_code, error_message)] }

/-- Lines 93-94 of `orders.py`: a new id is drawn from the counter only when
the order's `order_id` is falsy (zero). -/
def assignOrderId (s : OrdersMixin) (o : Order) : Order :=
  if o.order_id = 0 then { o with order_id := s.next_order_id } else o

/-- The four statements of `place_order`, as individual steps, in source
order: assign the id, store the order in `self.__orders`, register a fresh
pending future in `self.__submitted_future`, transmit `PLACE_ORDER`. -/
inductive PlaceStep where
  | assignId
  | storeOrder
  | registerFuture
  | transmit
  deriving DecidableEq, Repr

/-- Effect of one `place_order` statement on the mixin state and on the
(caller-owned, mutated-in-place) order object. -/
def applyPlaceStep (step : PlaceStep) (so : OrdersMixin × Order) : OrdersMixin × Order :=
  match step, so with
  | .assignId, (s, o) => (s, assignOrderId s o)
  | .storeOrder, (s, o) => ({ s with orders := mapInsert s.orders o.order_id o }, o)
  | .registerFuture, (s, o) =>
    ({ s with
       submitted_future := mapInsert s.submitted_future o.order_id s.next_fid
       futures := mapInsert s.futures s.next_fid FutureState.pending
       next_fid := s.next_fid + 1 }, o)
  | .transmit, (s, o) => ({ s with sent := s.sent ++ [OutMsg.placeOrder 45 o] }, o)

/-- The statement order of `place_order` (lines 93-98). -/
def placeOrderSteps : List PlaceStep :=
  [PlaceStep.assignId, PlaceStep.storeOrder, PlaceStep.registerFuture, PlaceStep.transmit]

/-- Run a list of `place_order` statements in order. -/
def runPlaceSteps (steps : List PlaceStep) (so : OrdersMixin × Order) : OrdersMixin × Order :=
  steps.foldl (fun acc step => applyPlaceStep step acc) so

/-- `OrdersMixin.place_order`.  Returns the new state, the id under which the
order was stored, and the id of the future cell returned to the caller
(`self.__submitted_future[order.order_id]`, which is the future just
registered, i.e. cell `s.next_fid`). -/
def place_order (s : OrdersMixin) (o : Order) : OrdersMixin × Nat × Nat :=
  let so := runPlaceSteps placeOrderSteps (s, o)
  (so.1, so.2.order_id, s.next_fid)

/-- Result of a call that returns an awaitable order: either a registered
placement future (`placed oid fid`) or, with `place=False`, an immediately
resolved wrapper around the composed order (`wrap_immediate_future`). -/
inductive PlaceResult where
  | placed (order_id : Nat) (fid : Nat)
  | immediate (o : Order)

/-- `OrdersMixin.create_limit_order`: composes a limit order (action and
quantity from the sign of `quantity` when no action is given) and places
it. -/
def create_limit_order (s : OrdersMixin) (instrument : Instrument) (quantity limit : Rat)
    (action : Option String := none) (time_in_force : String := "GTC")
    (place : Bool := true) : OrdersMixin × PlaceResult :=
  let o : Order :=
    { Order.default with
      instrument := instrument
      order_type := "LMT"
      limit_price := limit
      time_in_force := time_in_force }
  let o :=
    match action with
    | none =>
      { o with
        action := if quantity > 0 then "BUY" else "SELL"
        total_quantity := |quantity| }
    | some a => { o with action := a, total_quantity := quantity }
  if place then
    let r := place_order s o
    (r.1, PlaceResult.placed r.2.1 r.2.2)
  else
    (s, PlaceResult.immediate o)

/-- `OrdersMixin.create_market_order`: same composition with order type
`MKT` and no limit price. -/
def create_market_order (s : OrdersMixin) (instrument : Instrument) (quantity : Rat)
    (action : Option String := none) (time_in_force : String := "GTC")
    (place : Bool := true) : OrdersMixin × PlaceResult :=
  let o : Order :=
    { Order.default with
      instrument := instrument
      order_type := "MKT"
      time_in_force := time_in_force }
  let o :=
    match action with
    | none =>
      { o with
        action := if quantity > 0 then "BUY" else "SELL"
        total_quantity := |quantity| }
    | some a => { o with action := a, total_quantity := quantity }
  if place then
    let r := place_order s o
    (r.1, PlaceResult.placed r.2.1 r.2.2)
  else
    (s, PlaceResult.immediate o)

/-- Modelled from the spec: one wire field, already parsed by the black-box
primitive decoder into its semantic type (the spec treats the primitive
field codec as an assumed-correct external collaborator, so the token
stream carries typed values rather than raw bytes). -/
inductive Token where
  | ts (v : String)
  | ti (v : Int)
  | tf (v : Rat)
  | tb (v : Bool)
  | tdt (v : String)
  | tdict (v : List (String × String))
  | tuc (v : UnderlyingComponent)
  deriving DecidableEq, Repr

/-- Modelled from the spec: an `IncomingMessage` being decoded — the
remaining field tokens plus the two version axes: the negotiated session
protocol version `pv` and the per-message format version `mv`. -/
structure Msg where
  tokens : List Token
  pv : Nat
  mv : Nat
  deriving DecidableEq, Repr

/-- The mutable state threaded through `_handle_open_order`'s read sequence:
the order object being populated and the message read cursor. -/
structure DecSt where
  order : Order
  msg : Msg

/-- A step of the sequential decoder: mutates the order/message state and
either produces a value or stops with a decode error.  The state at the
error point is kept, because in the source the order object is mutated in
place and the message cursor has advanced when an exception propagates. -/
def DecM (α : Type) : Type :=
  DecSt → DecSt × Except DecodeErr α

def DecM.pure {α : Type} (a : α) : DecM α := fun st => (st, Except.ok a)

def DecM.bind {α β : Type} (x : DecM α) (f : α → DecM β) : DecM β := fun st =>
  match x st with
  | (st', Except.ok a) => f a st'
  | (st', Except.error e) => (st', Except.error e)

instance : Monad DecM where
  pure := DecM.pure
  bind := DecM.bind

/-- `raise e` inside the decoding sequence. -/
def DecM.fail (e : DecodeErr) : DecM Unit := fun st => (st, Except.error e)

/-- Modelled from the spec: the two-axis version gate of
`IncomingMessage.read` — a field governed by `min_version` /
`min_message_version` is present on the wire iff the corresponding
negotiated or message version reaches the floor. -/
def gatePass (minPV minMV : Option Nat) (m : Msg) : Bool :=
  (match minPV with
   | none => true
   | some v => decide (v ≤ m.pv)) &&
  (match minMV with
   | none => true
   | some v => decide (v ≤ m.mv))

/-- Modelled from the spec: `message.read(str, ...)` — if the gate fails the
type default is returned and no token is consumed; otherwise the next
token is consumed and must be a string. -/
def rdStrG (minPV minMV : Option Nat) : DecM String := fun st =>
  if gatePass minPV minMV st.msg then
    match st.msg.tokens with
    | Token.ts v :: rest => ({ st with msg := { st.msg with tokens := rest } }, Except.ok v)
    | _ => (st, Except.error DecodeErr.decodeError)
  else (st, Except.ok (""))

/-- Modelled from the spec: `message.read(int, ...)`. -/
def rdIntG (minPV minMV : Option Nat) : DecM Int := fun st =>
  if gatePass minPV minMV st.msg then
    match st.msg.tokens with
    | Token.ti v :: rest => ({ st with msg := { st.msg with tokens := rest } }, Except.ok v)
    | _ => (st, Except.error DecodeErr.decodeError)
  else (st, Except.ok 0)

/-- Modelled from the spec: `message.read(float, ...)`. -/
def rdFloatG (minPV minMV : Option Nat) : DecM Rat := fun st =>
  if gatePass minPV minMV st.msg then
    match st.msg.tokens with
    | Token.tf v :: rest => ({ st with msg := { st.msg with tokens := rest } }, Except.ok v)
    | _ => (st, Except.error DecodeErr.decodeError)
  else (st, Except.ok 0)

/-- Modelled from the spec: `message.read(bool, ...)`. -/
def rdBoolG (minPV minMV : Option Nat) : DecM Bool := fun st =>
  if gatePass minPV minMV st.msg then
    match st.msg.tokens with
    | Token.tb v :: rest => ({ st with msg := { st.msg with tokens := rest } }, Except.ok v)
    | _ => (st, Except.error DecodeErr.decodeError)
  else (st, Except.ok false)

/-- Modelled from the spec: `message.read(datetime.datetime, ...)`; the
decoded date-time is kept in its wire string form. -/
def rdDtG (minPV minMV : Option Nat) : DecM String := fun st =>
  if gatePass minPV minMV st.msg then
    match st.msg.tokens with
    | Token.tdt v :: rest => ({ st with msg := { st.msg with tokens := rest } }, Except.ok v)
    | _ => (st, Except.error DecodeErr.decodeError)
  else (st, Except.ok (""))

/-- Modelled from the spec: `message.read(typing.Dict[str, str], ...)` /
`message.read(dict)` — a composite string-pair record. -/
def rdDictG (minPV minMV : Option Nat) : DecM (List (String × String)) := fun st =>
  if gatePass minPV minMV st.msg then
    match st.msg.tokens with
    | Token.tdict v :: rest => ({ st with msg := { st.msg with tokens := rest } }, Except.ok v)
    | _ => (st, Except.error DecodeErr.decodeError)
  else (st, Except.ok [])

/-- Modelled from the spec: `message.read(UnderlyingComponent)` — a
composite sub-record read inline from the same stream (ungated). -/
def rdUC : DecM UnderlyingComponent := fun st =>
  match st.msg.tokens with
  | Token.tuc v :: rest => ({ st with msg := { st.msg with tokens := rest } }, Except.ok v)
  | _ => (st, Except.error DecodeErr.decodeError)

/-- `message.read()` with type `str` and no gate. -/
def rdStr : DecM String := rdStrG none none

/-- `message.read(int)` with no gate. -/
def rdInt : DecM Int := rdIntG none none

/-- `message.read(float)` with no gate. -/
def rdFloat : DecM Rat := rdFloatG none none

/-- `message.read(bool)` with no gate. -/
def rdBool : DecM Bool := rdBoolG none none

/-- `message.read(datetime.datetime)` with no gate. -/
def rdDt : DecM String := rdDtG none none

/-- `message.read(dict)` with no gate. -/
def rdDict : DecM (List (String × String)) := rdDictG none none

/-- Read the in-progress order object (`order.<field>` on the right-hand
side of a conditional). -/
def getO : DecM Order := fun st => (st, Except.ok st.order)

/-- Assign a field of the in-progress order object. -/
def setO (f : Order → Order) : DecM Unit := fun st =>
  ({ st with order := f st.order }, Except.ok ())

/-- `order.<field> = message.read(...)`: one read-and-assign statement. -/
def rdSet {α : Type} (r : DecM α) (assign : Order → α → Order) : DecM Unit := do
  let v ← r
  setO fun o => assign o v

/-- Lines 164-211 of `orders.py`: the reads of `_handle_open_order` from
`model_code` up to and including `combo_legs_description` — everything
before the combo-legs presence flag.  Includes the conditional
delta-neutral sub-record. -/
def openOrderPhase1 : DecM Unit := do
  rdSet (rdStrG (some ProtocolVersion.MODELS_SUPPORT) none) (fun o v => { o with model_code := v })
  rdSet rdDt (fun o v => { o with good_till_date := v })
  rdSet rdStr (fun o v => { o with rule80a := v })
  rdSet rdFloat (fun o v => { o with percent_offset := v })
  rdSet rdStr (fun o v => { o with settling_firm := v })
  rdSet rdInt (fun o v => { o with short_sale_slot := v })
  rdSet rdStr (fun o v => { o with designated_location := v })
  rdSet rdInt (fun o v => { o with exempt_code := v })
  rdSet rdStr (fun o v => { o with auction_strategy := v })
  rdSet rdFloat (fun o v => { o with starting_price := v })
  rdSet rdFloat (fun o v => { o with stock_ref_price := v })
  rdSet rdFloat (fun o v => { o with delta := v })
  rdSet rdFloat (fun o v => { o with stock_range_lower := v })
  rdSet rdFloat (fun o v => { o with stock_range_upper := v })
  rdSet rdFloat (fun o v => { o with display_size := v })
  rdSet rdBool (fun o v => { o with block_order := v })
  rdSet rdBool (fun o v => { o with sweep_to_fill := v })
  rdSet rdBool (fun o v => { o with all_or_none := v })
  rdSet rdFloat (fun o v => { o with min_quantity := v })
  rdSet rdInt (fun o v => { o with oca_type := v })
  rdSet rdBool (fun o v => { o with etrade_only := v })
  rdSet rdBool (fun o v => { o with firm_quote_only := v })
  rdSet rdFloat (fun o v => { o with nbbo_price_cap := v })
  rdSet rdInt (fun o v => { o with parent_id := v })
  rdSet rdInt (fun o v => { o with trigger_method := v })
  rdSet rdFloat (fun o v => { o with volatility := v })
  rdSet rdInt (fun o v => { o with volatility_type := v })
  rdSet rdStr (fun o v => { o with delta_neutral_order_type := v })
  rdSet rdFloat (fun o v => { o with delta_neutral_aux_price := v })
  let o ← getO
  if o.delta_neutral_order_type ≠ "" then
    rdSet rdInt (fun o v => { o with delta_neutral_contract_id := v })
    rdSet rdStr (fun o v => { o with delta_neutral_settling_firm := v })
    rdSet rdStr (fun o v => { o with delta_neutral_clearing_account := v })
    rdSet rdStr (fun o v => { o with delta_neutral_clearing_intent := v })
    rdSet rdStr (fun o v => { o with delta_neutral_open_close := v })
    rdSet rdBool (fun o v => { o with delta_neutral_short_sale := v })
    rdSet rdInt (fun o v => { o with delta_neutral_short_sale_slot := v })
    rdSet rdStr (fun o v => { o with delta_neutral_designated_location := v })
  rdSet rdBool (fun o v => { o with continuous_update := v })
  rdSet rdInt (fun o v => { o with reference_price_type := v })
  rdSet rdFloat (fun o v => { o with trail_stop_price := v })
  rdSet rdFloat (fun o v => { o with trailing_percent := v })
  rdSet rdFloat (fun o v => { o with basis_points := v })
  rdSet rdInt (fun o v => { o with basis_points_type := v })
  rdSet rdStr (fun o v => { o with combo_legs_description := v })

/-- Lines 213-214 of `orders.py`: the combo-legs presence count; a nonzero
count is an unsupported feature. -/
def comboLegsCheck : DecM Unit :=
  DecM.bind rdInt fun n =>
    if n ≠ 0 then DecM.fail (DecodeErr.unsupportedFeature ("combo legs")) else DecM.pure ()

/-- Lines 216-217 of `orders.py`: the order-combo-legs presence count; a
nonzero count is an unsupported feature. -/
def orderComboLegsCheck : DecM Unit :=
  DecM.bind rdInt fun n =>
    if n ≠ 0 then DecM.fail (DecodeErr.unsupportedFeature ("order combo legs")) else DecM.pure ()

/-- Lines 219-266 of `orders.py`: the reads between the order-combo-legs
flag and the PEG-BENCH block (smart-combo params, scale fields, hedge
fields, underlying component, algo fields, what-if commission and margin
fields). -/
def openOrderPhase2a : DecM Unit := do
  rdSet rdDict (fun o v => { o with smart_combo_routing_params := v })
  rdSet rdInt (fun o v => { o with scale_init_level_size := v })
  rdSet rdInt (fun o v => { o with scale_subs_level_size := v })
  rdSet rdFloat (fun o v => { o with scale_price_increment := v })
  let o ← getO
  if o.scale_price_increment ≠ 0 then
    rdSet (rdFloatG none (some 28)) (fun o v => { o with scale_price_adjust_value := v })
    rdSet (rdIntG none (some 28)) (fun o v => { o with scale_price_adjust_interval := v })
    rdSet (rdFloatG none (some 28)) (fun o v => { o with scale_profit_offset := v })
    rdSet (rdBoolG none (some 28)) (fun o v => { o with scale_auto_reset := v })
    rdSet (rdIntG none (some 28)) (fun o v => { o with scale_init_position := v })
    rdSet (rdIntG none (some 28)) (fun o v => { o with scale_init_fill_quantity := v })
    rdSet (rdFloatG none (some 28)) (fun o v => { o with scale_random_percent := v })
  rdSet (rdStrG none (some 24)) (fun o v => { o with hedge_type := v })
  let o ← getO
  if o.hedge_type ≠ "" then
    rdSet rdStr (fun o v => { o with hedge_param := v })
  rdSet (rdBoolG none (some 25)) (fun o v => { o with opt_out_smart_routing := v })
  rdSet rdStr (fun o v => { o with clearing_account := v })
  rdSet rdStr (fun o v => { o with clearing_intent := v })
  rdSet (rdBoolG none (some 22)) (fun o v => { o with not_held := v })
  let hasUnderlying ← rdBoolG none (some 20)
  if hasUnderlying then
    rdSet rdUC (fun o v => { o with instrument := { o.instrument with underlying_component := some v } })
  rdSet (rdStrG none (some 21)) (fun o v => { o with algo_strategy := v })
  let o ← getO
  if o.algo_strategy ≠ "" then
    rdSet rdDict (fun o v => { o with algo_parameters := v })
  rdSet (rdBoolG none (some 33)) (fun o v => { o with solicited := v })
  rdSet rdBool (fun o v => { o with what_if := v })
  rdSet rdStr (fun o v => { o with status := v })
  rdSet rdStr (fun o v => { o with inital_margin := v })
  rdSet rdStr (fun o v => { o with maintenance_margin := v })
  rdSet rdStr (fun o v => { o with equity_with_loan := v })
  rdSet rdFloat (fun o v => { o with commission := v })
  rdSet rdFloat (fun o v => { o with min_commission := v })
  rdSet rdFloat (fun o v => { o with max_commission := v })
  rdSet rdStr (fun o v => { o with commission_currency := v })
  rdSet rdStr (fun o v => { o with warning_text := v })
  rdSet (rdBoolG none (some 34)) (fun o v => { o with randomize_size := v })
  rdSet (rdBoolG none (some 34)) (fun o v => { o with randomize_price := v })

/-- Lines 268-273 of `orders.py`: the PEG-BENCH fields, present only when
the order type is `PEG BENCH`. -/
def openOrderPegBench : DecM Unit :=
  DecM.bind getO fun o =>
    if o.order_type = "PEG BENCH" then do
      rdSet (rdIntG (some ProtocolVersion.PEGGED_TO_BENCHMARK) none)
        (fun o v => { o with reference_contract_id := v })
      rdSet (rdBoolG (some ProtocolVersion.PEGGED_TO_BENCHMARK) none)
        (fun o v => { o with is_pegged_change_amount_decrease := v })
      rdSet (rdFloatG (some ProtocolVersion.PEGGED_TO_BENCHMARK) none)
        (fun o v => { o with pegged_change_amount := v })
      rdSet (rdFloatG (some ProtocolVersion.PEGGED_TO_BENCHMARK) none)
        (fun o v => { o with reference_change_amount := v })
      rdSet (rdStrG (some ProtocolVersion.PEGGED_TO_BENCHMARK) none)
        (fun o v => { o with reference_exchange_id := v })
    else DecM.pure ()

/-- Lines 219-273 of `orders.py`: everything between the order-combo-legs
flag and the order-conditions flag. -/
def openOrderPhase2 : DecM Unit :=
  DecM.bind openOrderPhase2a fun _ => openOrderPegBench

/-- Lines 275-276 of `orders.py`: the order-conditions count (gated on the
PEG-BENCH protocol version); a nonzero count is an unsupported feature. -/
def orderConditionsCheck : DecM Unit :=
  DecM.bind (rdIntG (some ProtocolVersion.PEGGED_TO_BENCHMARK) none) fun n =>
    if n ≠ 0 then DecM.fail (DecodeErr.unsupportedFeature ("order conditions")) else DecM.pure ()

/-- Lines 278-291 of `orders.py`: the version-gated trailing fields after
the order-conditions flag. -/
def openOrderPhase3 : DecM Unit := do
  rdSet (rdStrG (some ProtocolVersion.PEGGED_TO_BENCHMARK) none)
    (fun o v => { o with adjusted_order_type := v })
  rdSet (rdFloatG (some ProtocolVersion.PEGGED_TO_BENCHMARK) none)
    (fun o v => { o with trigger_price := v })
  rdSet (rdFloatG (some ProtocolVersion.PEGGED_TO_BENCHMARK) none)
    (fun o v => { o with trail_stop_price := v })
  rdSet (rdFloatG (some ProtocolVersion.PEGGED_TO_BENCHMARK) none)
    (fun o v => { o with limit_price_offset := v })
  rdSet (rdFloatG (some ProtocolVersion.PEGGED_TO_BENCHMARK) none)
    (fun o v => { o with adjusted_stop_price := v })
  rdSet (rdFloatG (some ProtocolVersion.PEGGED_TO_BENCHMARK) none)
    (fun o v => { o with adjusted_stop_limit_price := v })
  rdSet (rdFloatG (some ProtocolVersion.PEGGED_TO_BENCHMARK) none)
    (fun o v => { o with adjusted_trailing_amount := v })
  rdSet (rdIntG (some ProtocolVersion.PEGGED_TO_BENCHMARK) none)
    (fun o v => { o with adjustable_trailing_unit := v })
  rdSet (rdStrG (some ProtocolVersion.SOFT_DOLLAR_TIER) none)
    (fun o v => { o with soft_dollar_tier_name := v })
  rdSet (rdStrG (some ProtocolVersion.SOFT_DOLLAR_TIER) none)
    (fun o v => { o with soft_dollar_tier_value := v })
  rdSet (rdStrG (some ProtocolVersion.SOFT_DOLLAR_TIER) none)
    (fun o v => { o with soft_dollar_tier_display_name := v })
  rdSet (rdFloatG (some ProtocolVersion.CASH_QTY) none)
    (fun o v => { o with cash_quantity := v })

/-- The full sequential read tail of `_handle_open_order` (lines 164-291),
as the composition of its phases with the three unsupported-feature
checks at their source positions. -/
def decodeOpenOrderTail : DecM Unit :=
  DecM.bind openOrderPhase1 fun _ =>
  DecM.bind comboLegsCheck fun _ =>
  DecM.bind orderComboLegsCheck fun _ =>
  DecM.bind openOrderPhase2 fun _ =>
  DecM.bind orderConditionsCheck fun _ =>
  openOrderPhase3

/-- The already-decoded positional parameters of `_handle_open_order`
(lines 125-134), i.e. everything between `order_id` and `message`.
`deprecated_shares_allocation` is received but never assigned to the
order, exactly as in the source. -/
structure OpenOrderParams where
  instrument : Instrument := {}
  action : String := ""
  total_quantity : Rat := 0
  order_type : String := ""
  limit_price : Rat := 0
  aux_price : Rat := 0
  time_in_force : String := ""
  oca_group : String := ""
  account : String := ""
  open_close : String := ""
  origin : Int := 0
  order_ref : String := ""
  client_id : Int := 0
  perm_id : Int := 0
  outside_regular_trading_hours : Bool := false
  hidden : Bool := false
  discretionary_amount : Rat := 0
  good_after_time : String := ""
  deprecated_shares_allocation : String := ""
  fa_group : String := ""
  fa_method : String := ""
  fa_percentage : String := ""
  fa_profile : String := ""

/-- Lines 140-162 of `orders.py`: the direct positional-parameter
assignments of `_handle_open_order`. -/
def applyOpenOrderParams (o : Order) (order_id : Nat) (p : OpenOrderParams) : Order :=
  { o with
    order_id := order_id
    perm_id := p.perm_id
    instrument := p.instrument
    action := p.action
    total_quantity := p.total_quantity
    order_type := p.order_type
    limit_price := p.limit_price
    aux_price := p.aux_price
    time_in_force := p.time_in_force
    oca_group := p.oca_group
    account := p.account
    open_close := p.open_close
    origin := p.origin
    order_ref := p.order_ref
    client_id := p.client_id
    outside_regular_trading_hours := p.outside_regular_trading_hours
    hidden := p.hidden
    discretionary_amount := p.discretionary_amount
    good_after_time := p.good_after_time
    fa_group := p.fa_group
    fa_method := p.fa_method
    fa_percentage := p.fa_percentage
    fa_profile := p.fa_profile }

/-- Lines 135-138 of `orders.py`: fetch the order for this id, or
materialize a fresh record carrying the id. -/
def getOrCreateOrder (s : OrdersMixin) (order_id : Nat) : Order :=
  match s.orders order_id with
  | some o => o
  | none => { Order.default with order_id := order_id }

/-- The order object at the point where `_handle_open_order` starts reading
from the message: looked up or materialized, with the positional
parameters applied. -/
def openOrderEntry (s : OrdersMixin) (order_id : Nat) (p : OpenOrderParams) : Order :=
  applyOpenOrderParams (getOrCreateOrder s order_id) order_id p

/-- `OrdersMixin._handle_open_order`.  Returns the new mixin state, the
remaining message (read cursor), and the decode error if one was raised.
On an error the partially updated order is still in the order map (the
source mutates the stored object in place and the exception propagates
before the future pop, so no future is resolved); on success the pending
placement future (if any) is popped and resolved with the order, and
`updated` fires afterwards. -/
def handleOpenOrder (s : OrdersMixin) (order_id : Nat) (p : OpenOrderParams) (msg : Msg) :
    OrdersMixin × Msg × Option DecodeErr :=
  match decodeOpenOrderTail { order := openOrderEntry s order_id p, msg := msg } with
  | (st, Except.error e) =>
    ({ s with orders := mapInsert s.orders order_id st.order }, st.msg, some e)
  | (st, Except.ok _) =>
    let o := st.order
    let s1 :=
      match s.submitted_future order_id with
      | some fid =>
        { s with
          submitted_future := mapErase s.submitted_future order_id
          futures := mapInsert s.futures fid (FutureState.result o) }
      | none => s
    ({ s1 with
       orders := mapInsert s1.orders order_id { o with updated_count := o.updated_count + 1 } },
     st.msg, none)

theorem DecM.bind_ok {α β : Type} {x : DecM α} {f : α → DecM β} {st st' : DecSt} {a : α}
    (h : x st = (st', Except.ok a)) : DecM.bind x f st = f a st' := by
  unfold DecM.bind
  rw [h]

theorem DecM.bind_err {α β : Type} {x : DecM α} {f : α → DecM β} {st st' : DecSt}
    {e : DecodeErr} (h : x st = (st', Except.error e)) :
    DecM.bind x f st = (st', Except.error e) := by
  unfold DecM.bind
  rw [h]

/-- The tokens of a minimal well-formed phase-1 section: every field at its
type default (so the delta-neutral sub-record is absent). -/
def phase1MinTokens : List Token :=
  [Token.ts (""), Token.tdt (""), Token.ts (""), Token.tf 0, Token.ts (""), Token.ti 0,
   Token.ts (""), Token.ti 0, Token.ts (""), Token.tf 0, Token.tf 0, Token.tf 0,
   Token.tf 0, Token.tf 0, Token.tf 0, Token.tb false, Token.tb false, Token.tb false,
   Token.tf 0, Token.ti 0, Token.tb false, Token.tb false, Token.tf 0, Token.ti 0,
   Token.ti 0, Token.tf 0, Token.ti 0, Token.ts (""), Token.tf 0,
   Token.tb false, Token.ti 0, Token.tf 0, Token.tf 0, Token.tf 0, Token.ti 0, Token.ts ("")]

/-- The tokens of a minimal phase-2 section (before the PEG-BENCH block),
for a message with format version 34: every field at its type default, so
the scale, hedge, underlying-component and algo sub-records are absent. -/
def phase2aMinTokens : List Token :=
  [Token.tdict [], Token.ti 0, Token.ti 0, Token.tf 0, Token.ts (""), Token.tb false,
   Token.ts (""), Token.ts (""), Token.tb false, Token.tb false, Token.ts (""),
   Token.tb false, Token.tb false, Token.ts (""), Token.ts (""), Token.ts (""),
   Token.ts (""), Token.tf 0, Token.tf 0, Token.tf 0, Token.ts (""), Token.ts (""),
   Token.tb false, Token.tb false]

/-- The tokens of a minimal phase-3 section for protocol version 112
(all gates open): every field at its type default. -/
def phase3MinTokens : List Token :=
  [Token.ts (""), Token.tf 0, Token.tf 0, Token.tf 0, Token.tf 0, Token.tf 0,
   Token.tf 0, Token.ti 0, Token.ts (""), Token.ts (""), Token.ts (""), Token.tf 0]

/-- A minimal well-formed open-order message at protocol version 112 and
message version 34: all optional sub-records absent, all three
unsupported-feature counts zero, every field at its type default,
followed by `rest` (leftover tokens, empty for a real message). -/
def minimalMsg (rest : List Token) : Msg :=
  { tokens :=
      phase1MinTokens ++
        (Token.ti 0 :: (Token.ti 0 :: (phase2aMinTokens ++ (Token.ti 0 :: (phase3MinTokens ++ rest)))))
    pv := 112
    mv := 34 }

/-- The field updates a minimal phase-1 section applies. -/
def phase1MinApply (o : Order) : Order :=
  { o with
    model_code := "", good_till_date := "", rule80a := "", percent_offset := 0,
    settling_firm := "", short_sale_slot := 0, designated_location := "", exempt_code := 0,
    auction_strategy := "", starting_price := 0, stock_ref_price := 0, delta := 0,
    stock_range_lower := 0, stock_range_upper := 0, display_size := 0, block_order := false,
    sweep_to_fill := false, all_or_none := false, min_quantity := 0, oca_type := 0,
    etrade_only := false, firm_quote_only := false, nbbo_price_cap := 0, parent_id := 0,
    trigger_method := 0, volatility := 0, volatility_type := 0, delta_neutral_order_type := "",
    delta_neutral_aux_price := 0, continuous_update := false, reference_price_type := 0,
    trail_stop_price := 0, trailing_percent := 0, basis_points := 0, basis_points_type := 0,
    combo_legs_description := "" }

/-- The field updates a minimal phase-2 section applies. -/
def phase2aMinApply (o : Order) : Order :=
  { o with
    smart_combo_routing_params := [], scale_init_level_size := 0,
    scale_subs_level_size := 0, scale_price_increment := 0, hedge_type := "",
    opt_out_smart_routing := false, clearing_account := "", clearing_intent := "",
    not_held := false, algo_strategy := "", solicited := false, what_if := false,
    status := "", inital_margin := "", maintenance_margin := "", equity_with_loan := "",
    commission := 0, min_commission := 0, max_commission := 0, commission_currency := "",
    warning_text := "", randomize_size := false, randomize_price := false }

/-- The field updates a minimal phase-3 section applies. -/
def phase3MinApply (o : Order) : Order :=
  { o with
    adjusted_order_type := "", trigger_price := 0, trail_stop_price := 0,
    limit_price_offset := 0, adjusted_stop_price := 0, adjusted_stop_limit_price := 0,
    adjusted_trailing_amount := 0, adjustable_trailing_unit := 0, soft_dollar_tier_name := "",
    soft_dollar_tier_value := "", soft_dollar_tier_display_name := "", cash_quantity := 0 }

/-- The total field update a minimal open-order message applies during the
sequential read tail. -/
def minDecodeApply (o : Order) : Order :=
  phase3MinApply (phase2aMinApply (phase1MinApply o))

theorem phase1_min (o : Order) (rest : List Token) :
    openOrderPhase1
        { order := o, msg := { tokens := phase1MinTokens ++ rest, pv := 112, mv := 34 } } =
      ({ order := phase1MinApply o, msg := { tokens := rest, pv := 112, mv := 34 } },
       Except.ok ()) := rfl

theorem pegBench_skip (o : Order) (m : Msg) (h : o.order_type ≠ "PEG BENCH") :
    openOrderPegBench { order := o, msg := m } = ({ order := o, msg := m }, Except.ok ()) := by
  simp only [openOrderPegBench, DecM.bind, getO]
  rw [if_neg h]
  rfl

/-- Evaluating the whole read tail on a minimal message: it succeeds,
consumes exactly the message, and applies exactly the minimal updates. -/
theorem decode_min (o : Order) (rest : List Token) (h : o.order_type ≠ "PEG BENCH") :
    decodeOpenOrderTail { order := o, msg := minimalMsg rest } =
      ({ order := minDecodeApply o, msg := { tokens := rest, pv := 112, mv := 34 } },
       Except.ok ()) := by
  show DecM.bind openOrderPegBench
      (fun _ => DecM.bind orderConditionsCheck fun _ => openOrderPhase3)
      { order := phase2aMinApply (phase1MinApply o),
        msg := { tokens := Token.ti 0 :: (phase3MinTokens ++ rest), pv := 112, mv := 34 } } =
    ({ order := minDecodeApply o, msg := { tokens := rest, pv := 112, mv := 34 } },
     Except.ok ())
  rw [DecM.bind_ok (pegBench_skip (phase2aMinApply (phase1MinApply o)) _ h)]
  rfl

/-- Modelled from the spec: the per-instrument subscription state record of
the MarketDataSubscriptionManager (`market_data.py` is not part of the
sources; only its tests are).  A non-null `active_request_id` means the
wire has an outstanding subscription for exactly `last_sent_tick_types`. -/
structure SubscriptionState where
  active_request_id : Option Nat := none
  last_sent_tick_types : Finset Nat := ∅
  deriving DecidableEq

/-- Modelled from the spec: outgoing market-data wire messages
(`REQ_MKT_DATA` with the tick-type set and snapshot / regulatory-snapshot
flags, and `CANCEL_MKT_DATA` for the active request id). -/
inductive MDOut where
  | reqMktData (rid : Nat) (ticks : Finset Nat) (snapshot : Bool) (regulatory : Bool)
  | cancelMktData (rid : Nat)
  deriving DecidableEq

/-- Modelled from the spec: the declarative subscription diff, triggered on
any mutation of an instrument's declared tick-type interest.  If the
interest is non-empty and no subscription is active (or the set changed),
send one subscribe/resubscribe carrying the full current set; if the
interest became empty while a subscription is active, send one
unsubscribe for the active id; otherwise send nothing. -/
def updateSubscription (st : SubscriptionState) (nextRid : Nat) (want : Finset Nat) :
    SubscriptionState × List MDOut :=
  if want ≠ ∅ then
    match st.active_request_id with
    | none =>
      ({ active_request_id := some nextRid, last_sent_tick_types := want },
       [MDOut.reqMktData nextRid want false false])
    | some rid =>
      if st.last_sent_tick_types ≠ want then
        ({ active_request_id := some rid, last_sent_tick_types := want },
         [MDOut.reqMktData rid want false false])
      else (st, [])
  else
    match st.active_request_id with
    | some rid =>
      ({ active_request_id := none, last_sent_tick_types := ∅ }, [MDOut.cancelMktData rid])
    | none => (st, [])

/-- Modelled from the spec: the stale-version error raised synchronously at
call time (`OutdatedServerError`). -/
inductive MDError where
  | outdatedServer
  deriving DecidableEq, Repr

/-- Modelled from the spec: `get_market_data` — a market-data request.  The
negotiated-version check for the regulatory-snapshot feature runs first,
before the request message is composed or sent, so in the error case the
call produces no wire traffic at all (the message list exists only in the
`ok` result). -/
def get_market_data (version : Nat) (_st : SubscriptionState) (nextRid : Nat)
    (ticks : Finset Nat) (regulatory_snapshot : Bool) :
    Except MDError (SubscriptionState × List MDOut) :=
  if regulatory_snapshot = true ∧ version < ProtocolVersion.REGULATORY_SNAPSHOT then
    Except.error MDError.outdatedServer
  else
    Except.ok
      ({ active_request_id := some nextRid, last_sent_tick_types := ticks },
       [MDOut.reqMktData nextRid ticks true regulatory_snapshot])

/-- One inbound push or outbound call processed by the orders mixin. -/
inductive ClientOp where
  | statusPush (oid : Nat) (a : StatusArgs)
  | openOrderPush (oid : Nat) (p : OpenOrderParams) (msg : Msg)
  | errPush (rid : Nat) (code : Int) (emsg : String)
  | nextValidIdPush (n : Nat)
  | placeCall (o : Order)

/-- Dispatch one operation to its handler. -/
def applyOp (s : OrdersMixin) : ClientOp → OrdersMixin
  | ClientOp.statusPush oid a => handleOrderStatus s oid a
  | ClientOp.openOrderPush oid p m => (handleOpenOrder s oid p m).1
  | ClientOp.errPush rid c m => handleErrMsg s rid c m
  | ClientOp.nextValidIdPush n => handleNextValidId s n
  | ClientOp.placeCall o => (place_order s o).1

/-- Run a sequence of operations in delivery order. -/
def runOps (s : OrdersMixin) (ops : List ClientOp) : OrdersMixin :=
  ops.foldl applyOp s

/-- A future cell that is pending but no longer reachable from the
pending-future map (and within the allocated id range): such a cell can
never be resolved or failed again. -/
def OrphanPending (s : OrdersMixin) (fid : Nat) : Prop :=
  s.futures fid = some FutureState.pending ∧
  (∀ k, s.submitted_future k ≠ some fid) ∧
  fid < s.next_fid

/-- Evaluating `_handle_order_status` on a known order id with a pending
future: the status fields are applied and the future is popped and
resolved with the updated order. -/
theorem handleOrderStatus_known (s : OrdersMixin) (oid : Nat) (o0 : Order) (fid : Nat)
    (a : StatusArgs) (h0 : s.orders oid = some o0) (h1 : s.submitted_future oid = some fid) :
    handleOrderStatus s oid a =
      { s with
        orders := mapInsert s.orders oid (applyStatus o0 a)
        submitted_future := mapErase s.submitted_future oid
        futures := mapInsert s.futures fid (FutureState.result (applyStatus o0 a)) } := by
  unfold handleOrderStatus
  rw [h0]
  dsimp only
  rw [h1]

/-- Evaluating `_handle_order_status` on a known order id with no pending
future: only the order record changes. -/
theorem handleOrderStatus_known_nofut (s : OrdersMixin) (oid : Nat) (o0 : Order)
    (a : StatusArgs) (h0 : s.orders oid = some o0) (h1 : s.submitted_future oid = none) :
    handleOrderStatus s oid a =
      { s with orders := mapInsert s.orders oid (applyStatus o0 a) } := by
  unfold handleOrderStatus
  rw [h0]
  dsimp only
  rw [h1]

/-- Evaluating `_handle_order_status` on an unknown order id: the push is
ignored entirely. -/
theorem handleOrderStatus_unknown (s : OrdersMixin) (oid : Nat) (a : StatusArgs)
    (h0 : s.orders oid = none) : handleOrderStatus s oid a = s := by
  unfold handleOrderStatus
  rw [h0]

/-- Evaluating an ungated `message.read(int)` on a stream whose next token
is an int. -/
theorem rdInt_cons (st : DecSt) (n : Int) (rest : List Token)
    (h : st.msg.tokens = Token.ti n :: rest) :
    rdInt st = ({ st with msg := { st.msg with tokens := rest } }, Except.ok n) := by
  unfold rdInt rdIntG
  rw [h, if_pos]
  rfl

/-- Evaluating a protocol-version-gated `message.read(int)` with the gate
open, on a stream whose next token is an int. -/
theorem rdIntG_pv_cons (v : Nat) (st : DecSt) (n : Int) (rest : List Token)
    (hv : v ≤ st.msg.pv) (h : st.msg.tokens = Token.ti n :: rest) :
    rdIntG (some v) none st = ({ st with msg := { st.msg with tokens := rest } }, Except.ok n) := by
  unfold rdIntG
  rw [h, if_pos]
  simp [gatePass, hv]

/-- C7: in `place_order`, the pending placement future is registered (and
the order stored in the order map) strictly before the place-order
transmission step runs; the state in which transmission happens already
holds the pending future under the order's id, and so does the post-call
state, so a reply arriving immediately after transmission always finds a
pending future for that id. -/
theorem c7_registration_before_transmission (s : OrdersMixin) (o : Order) :
    placeOrderSteps.indexOf PlaceStep.registerFuture < placeOrderSteps.indexOf PlaceStep.transmit ∧
    (runPlaceSteps (placeOrderSteps.take 3) (s, o)).1.submitted_future (assignOrderId s o).order_id =
      some s.next_fid ∧
    (runPlaceSteps (placeOrderSteps.take 3) (s, o)).1.futures s.next_fid =
      some FutureState.pending ∧
    (runPlaceSteps (placeOrderSteps.take 3) (s, o)).1.orders (assignOrderId s o).order_id =
      some (assignOrderId s o) ∧
    runPlaceSteps placeOrderSteps (s, o) =
      applyPlaceStep PlaceStep.transmit (runPlaceSteps (placeOrderSteps.take 3) (s, o)) ∧
    (place_order s o).1.submitted_future (assignOrderId s o).order_id = some s.next_fid ∧
    (place_order s o).1.futures s.next_fid = some FutureState.pending := by
  refine ⟨by decide, ?_, ?_, ?_, rfl, ?_, ?_⟩ <;>
    simp [place_order, runPlaceSteps, placeOrderSteps, applyPlaceStep]

/-- C5 counterexample: starting from a fresh client, two consecutive
`place_order` calls that both allocate an id (fresh orders with unset
`order_id`, no next-valid-id push in between) receive the same id 1,
because `place_order` itself never advances the counter — refuting that
any two allocating calls receive distinct, increasing ids. -/
theorem c5_counterexample :
    (place_order initClient Order.default).2.1 = 1 ∧
    (place_order (place_order initClient Order.default).1 Order.default).2.1 = 1 ∧
    ¬((place_order initClient Order.default).2.1 ≠
        (place_order (place_order initClient Order.default).1 Order.default).2.1) := by
  refine ⟨rfl, rfl, ?_⟩
  decide

/-- C5 amended: an allocating `place_order` call assigns exactly the current
counter value and does not advance the counter; the counter floor is set
by every next-valid-id push, and an allocating call after such a push
assigns exactly the announced floor (so never below the last announced
floor); two allocating calls separated by a push announcing a strictly
larger floor do receive distinct, increasing ids. -/
theorem c5_amended (s : OrdersMixin) (o1 o2 : Order) (n : Nat)
    (h1 : o1.order_id = 0) (h2 : o2.order_id = 0) (hn : s.next_order_id < n) :
    (place_order s o1).2.1 = s.next_order_id ∧
    (place_order s o1).1.next_order_id = s.next_order_id ∧
    (handleNextValidId s n).next_order_id = n ∧
    (place_order (handleNextValidId s n) o1).2.1 = n ∧
    (place_order s o1).2.1 <
      (place_order (handleNextValidId (place_order s o1).1 n) o2).2.1 := by
  refine ⟨?_, rfl, rfl, ?_, ?_⟩ <;>
    simp [place_order, runPlaceSteps, placeOrderSteps, applyPlaceStep, assignOrderId,
      handleNextValidId, h1, h2, hn]

/-- C5 amended witness: the amended statement at the fresh client with two
fresh orders and an announced floor of 5. -/
theorem c5_amended_witness :
    (place_order initClient Order.default).2.1 = initClient.next_order_id ∧
    (place_order initClient Order.default).1.next_order_id = initClient.next_order_id ∧
    (handleNextValidId initClient 5).next_order_id = 5 ∧
    (place_order (handleNextValidId initClient 5) Order.default).2.1 = 5 ∧
    (place_order initClient Order.default).2.1 <
      (place_order (handleNextValidId (place_order initClient Order.default).1 5)
        Order.default).2.1 :=
  c5_amended initClient Order.default Order.default 5 rfl rfl (by decide)

/-- The status-push arguments used in the C3 counterexample. -/
def exStatusArgs : StatusArgs :=
  { status := "Submitted", filled := 0, remaining := 100, average_fill_price := 0,
    perm_id := 7, parent_id := 0, last_fill_price := 0, client_id := 2,
    why_held := "", market_cap_price := none }

/-- An all-default open-order parameter record. -/
def exParams0 : OpenOrderParams := {}

/-- C3 counterexample: an order-status push for id 5 delivered to a fresh
client (which has never seen that id) creates no order record — the
state is unchanged — refuting that a status push for an unknown id
synthesizes a new record. -/
theorem c3_counterexample :
    (handleOrderStatus initClient 5 exStatusArgs).orders 5 = none ∧
    handleOrderStatus initClient 5 exStatusArgs = initClient :=
  ⟨rfl, rfl⟩

/-- C3 amended: an order-status push for an order id the client has never
seen is ignored entirely (no record is created, the state is unchanged);
an open-order push for an unknown id does synthesize a new record,
populated from the push's fields with all other fields left at type
defaults. -/
theorem c3_amended (s : OrdersMixin) (oid : Nat) (a : StatusArgs) (p : OpenOrderParams)
    (rest : List Token) (hu : s.orders oid = none) (hp : p.order_type ≠ "PEG BENCH") :
    handleOrderStatus s oid a = s ∧
    (handleOpenOrder s oid p (minimalMsg rest)).1.orders oid =
      some { minDecodeApply (applyOpenOrderParams { Order.default with order_id := oid } oid p)
             with updated_count := 1 } := by
  constructor
  · exact handleOrderStatus_unknown s oid a hu
  · have hentry : openOrderEntry s oid p =
        applyOpenOrderParams { Order.default with order_id := oid } oid p := by
      unfold openOrderEntry getOrCreateOrder
      rw [hu]
    have hpe : (openOrderEntry s oid p).order_type ≠ "PEG BENCH" := by
      rw [hentry]; exact hp
    have hdec := decode_min (openOrderEntry s oid p) rest hpe
    unfold handleOpenOrder
    rw [hdec, hentry]
    dsimp only
    rw [mapInsert_self]
    rfl

/-- C3 amended witness: the amended statement at the fresh client, id 5,
the concrete status push, default open-order parameters and an exactly
minimal open-order message. -/
theorem c3_amended_witness :
    handleOrderStatus initClient 5 exStatusArgs = initClient ∧
    (handleOpenOrder initClient 5 exParams0 (minimalMsg [])).1.orders 5 =
      some { minDecodeApply (applyOpenOrderParams { Order.default with order_id := 5 } 5 exParams0)
             with updated_count := 1 } :=
  c3_amended initClient 5 exStatusArgs exParams0 [] rfl (by decide)

/-- The order that `create_limit_order(instrument, 100, 13.37)` composes
and places on a fresh client: a Buy limit order for 100 units at 13.37,
good-till-cancel, under the allocated id 1. -/
def c6Order (instr : Instrument) : Order :=
  { Order.default with
    order_id := 1
    instrument := instr
    order_type := "LMT"
    limit_price := 13.37
    time_in_force := "GTC"
    action := "BUY"
    total_quantity := 100 }

/-- C6: `create_limit_order(instrument, 100, 13.37)` on a fresh client
composes a Buy limit order of quantity 100 at 13.37 and sends exactly one
place-order message carrying it, under id 1 with pending future 0; a
subsequent status push `(1, "Submitted", 0, 100, 0.0, perm_id, 0, 0,
client_id, "")` resolves that future with an order whose status is
`Submitted` and whose remaining quantity is 100. -/
theorem c6_limit_order_scenario (instr : Instrument) (perm_id client_id : Int) :
    (create_limit_order initClient instr 100 13.37).2 = PlaceResult.placed 1 0 ∧
    (∃ po, (create_limit_order initClient instr 100 13.37).1.sent = [OutMsg.placeOrder 45 po] ∧
      po.action = "BUY" ∧ po.total_quantity = 100 ∧ po.order_type = "LMT" ∧
      po.limit_price = 13.37 ∧ po.order_id = 1) ∧
    (∃ res,
      (handleOrderStatus (create_limit_order initClient instr 100 13.37).1 1
        { status := "Submitted", filled := 0, remaining := 100, average_fill_price := 0,
          perm_id := perm_id, parent_id := 0, last_fill_price := 0, client_id := client_id,
          why_held := "", market_cap_price := none }).futures 0 =
        some (FutureState.result res) ∧
      res.status = "Submitted" ∧ res.remaining = 100) := by
  exact ⟨rfl, ⟨c6Order instr, rfl, rfl, rfl, rfl, rfl, rfl⟩,
    ⟨applyStatus (c6Order instr)
      { status := "Submitted", filled := 0, remaining := 100, average_fill_price := 0,
        perm_id := perm_id, parent_id := 0, last_fill_price := 0, client_id := client_id,
        why_held := "", market_cap_price := none }, rfl, rfl, rfl⟩⟩

/-- C1: for an order id with a known order and a pending placement future,
an order-status push resolves the future exactly once, with the order as
populated by that first push; a subsequent open-order push for the same
id does not touch the future heap or the pending-future map again and
raises no error, but still updates the order record's fields. -/
theorem c1_at_most_once_resolution (s : OrdersMixin) (oid : Nat) (o0 : Order) (fid : Nat)
    (a : StatusArgs) (p : OpenOrderParams) (rest : List Token)
    (h0 : s.orders oid = some o0) (h1 : s.submitted_future oid = some fid)
    (hp : p.order_type ≠ "PEG BENCH") :
    (handleOrderStatus s oid a).futures fid = some (FutureState.result (applyStatus o0 a)) ∧
    (handleOrderStatus s oid a).submitted_future oid = none ∧
    (handleOpenOrder (handleOrderStatus s oid a) oid p (minimalMsg rest)).1.futures =
      (handleOrderStatus s oid a).futures ∧
    (handleOpenOrder (handleOrderStatus s oid a) oid p (minimalMsg rest)).1.submitted_future =
      (handleOrderStatus s oid a).submitted_future ∧
    (handleOpenOrder (handleOrderStatus s oid a) oid p (minimalMsg rest)).2.2 = none ∧
    (handleOpenOrder (handleOrderStatus s oid a) oid p (minimalMsg rest)).1.orders oid =
      some { minDecodeApply (applyOpenOrderParams (applyStatus o0 a) oid p) with
             updated_count := (applyStatus o0 a).updated_count + 1 } := by
  have hs1 := handleOrderStatus_known s oid o0 fid a h0 h1
  have hentry : openOrderEntry (handleOrderStatus s oid a) oid p =
      applyOpenOrderParams (applyStatus o0 a) oid p := by
    unfold openOrderEntry getOrCreateOrder
    rw [hs1]
    dsimp only
    rw [mapInsert_self]
  have hpe : (openOrderEntry (handleOrderStatus s oid a) oid p).order_type ≠ "PEG BENCH" := by
    rw [hentry]; exact hp
  have hdec := decode_min (openOrderEntry (handleOrderStatus s oid a) oid p) rest hpe
  have hnone : (handleOrderStatus s oid a).submitted_future oid = none := by
    rw [hs1]; exact mapErase_self _ _
  have hoo : handleOpenOrder (handleOrderStatus s oid a) oid p (minimalMsg rest) =
      ({ handleOrderStatus s oid a with
         orders := mapInsert (handleOrderStatus s oid a).orders oid
           { minDecodeApply (applyOpenOrderParams (applyStatus o0 a) oid p) with
             updated_count :=
               (minDecodeApply (applyOpenOrderParams (applyStatus o0 a) oid p)).updated_count
                 + 1 } },
       { tokens := rest, pv := 112, mv := 34 }, none) := by
    unfold handleOpenOrder
    rw [hdec, hentry]
    dsimp only
    rw [hnone]
  refine ⟨by rw [hs1]; simp, by rw [hs1]; simp, ?_, ?_, ?_, ?_⟩
  · rw [hoo]
  · rw [hoo]
  · rw [hoo]
  · rw [hoo]
    dsimp only
    rw [mapInsert_self]
    rfl

/-- An order known to the client under id 1. -/
def exOrder1 : Order := { Order.default with order_id := 1 }

/-- A client state holding `exOrder1` under id 1 with a pending placement
future (cell 0). -/
def exState1 : OrdersMixin :=
  { initClient with
    orders := mapInsert initClient.orders 1 exOrder1
    submitted_future := mapInsert initClient.submitted_future 1 0
    futures := mapInsert initClient.futures 0 FutureState.pending
    next_fid := 1 }

/-- C1 witness: the at-most-once resolution statement evaluated on the
concrete pending placement of `exOrder1`, a concrete status push and an
exactly minimal open-order push. -/
theorem c1_witness :
    (handleOrderStatus exState1 1 exStatusArgs).futures 0 =
      some (FutureState.result (applyStatus exOrder1 exStatusArgs)) ∧
    (handleOrderStatus exState1 1 exStatusArgs).submitted_future 1 = none ∧
    (handleOpenOrder (handleOrderStatus exState1 1 exStatusArgs) 1 exParams0
        (minimalMsg [])).1.futures =
      (handleOrderStatus exState1 1 exStatusArgs).futures ∧
    (handleOpenOrder (handleOrderStatus exState1 1 exStatusArgs) 1 exParams0
        (minimalMsg [])).1.submitted_future =
      (handleOrderStatus exState1 1 exStatusArgs).submitted_future ∧
    (handleOpenOrder (handleOrderStatus exState1 1 exStatusArgs) 1 exParams0
        (minimalMsg [])).2.2 = none ∧
    (handleOpenOrder (handleOrderStatus exState1 1 exStatusArgs) 1 exParams0
        (minimalMsg [])).1.orders 1 =
      some { minDecodeApply (applyOpenOrderParams (applyStatus exOrder1 exStatusArgs) 1 exParams0)
             with updated_count := (applyStatus exOrder1 exStatusArgs).updated_count + 1 } :=
  c1_at_most_once_resolution exState1 1 exOrder1 0 exStatusArgs exParams0 [] rfl rfl (by decide)

/-- C4: an incoming error with a request id that matches a pending
placement future pops that future and fails it with the server's code and
message, leaving the session error channel untouched; otherwise —
including for an id whose future was already resolved and retired by a
status push — the state is unchanged except that the error falls through
to the generic session error handler, and a previously resolved future is
never re-resolved or re-failed. -/
theorem c4_error_routing (s : OrdersMixin) (rid : Nat) (c : Int) (m : String) :
    (∀ fid, s.submitted_future rid = some fid →
      handleErrMsg s rid c m =
        { s with
          submitted_future := mapErase s.submitted_future rid
          futures := mapInsert s.futures fid (FutureState.exception c m) }) ∧
    (s.submitted_future rid = none →
      handleErrMsg s rid c m = { s with session_errors := s.session_errors ++ [(rid, c, m)] }) ∧
    (∀ oid o0 fid a, s.orders oid = some o0 → s.submitted_future oid = some fid →
      (handleErrMsg (handleOrderStatus s oid a) oid c m).futures fid =
        some (FutureState.result (applyStatus o0 a)) ∧
      (handleErrMsg (handleOrderStatus s oid a) oid c m).session_errors =
        s.session_errors ++ [(oid, c, m)]) := by
  refine ⟨?_, ?_, ?_⟩
  · intro fid h
    unfold handleErrMsg
    rw [h]
  · intro h
    unfold handleErrMsg
    rw [h]
  · intro oid o0 fid a h0 h1
    have hs1 := handleOrderStatus_known s oid o0 fid a h0 h1
    have hnone : (handleOrderStatus s oid a).submitted_future oid = none := by
      rw [hs1]; exact mapErase_self _ _
    constructor
    · unfold handleErrMsg
      rw [hnone]
      dsimp only
      rw [hs1]
      simp
    · unfold handleErrMsg
      rw [hnone]
      dsimp only
      rw [hs1]

/-- C4 witness: the error-routing statement evaluated on the concrete
state `exState1`: an error for id 1 fails the pending future, an error for
the unknown id 2 falls through to the session channel, and an error
arriving after the id-1 future was resolved by a status push leaves the
resolved future intact and falls through. -/
theorem c4_witness :
    (handleErrMsg exState1 1 201 ("Order rejected") =
      { exState1 with
        submitted_future := mapErase exState1.submitted_future 1
        futures := mapInsert exState1.futures 0 (FutureState.exception 201 ("Order rejected")) }) ∧
    (handleErrMsg exState1 2 201 ("Order rejected") =
      { exState1 with
        session_errors := exState1.session_errors ++ [(2, 201, ("Order rejected"))] }) ∧
    ((handleErrMsg (handleOrderStatus exState1 1 exStatusArgs) 1 201 ("Order rejected")).futures 0 =
      some (FutureState.result (applyStatus exOrder1 exStatusArgs)) ∧
     (handleErrMsg (handleOrderStatus exState1 1 exStatusArgs) 1 201
        ("Order rejected")).session_errors =
      exState1.session_errors ++ [(1, 201, ("Order rejected"))]) :=
  ⟨(c4_error_routing exState1 1 201 ("Order rejected")).1 0 rfl,
   (c4_error_routing exState1 2 201 ("Order rejected")).2.1 rfl,
   (c4_error_routing exState1 1 201 ("Order rejected")).2.2 1 exOrder1 0 exStatusArgs rfl rfl⟩

/-- C2: in an open-order push, whenever the decoder reaches one of the
three unsupported-feature presence counts (combo legs, order combo legs,
order conditions) and reads a nonzero value, decoding stops with an
`UnsupportedFeature` error naming that feature: no token after the count
is consumed, and the order record keeps exactly the state it had when the
count was read (no later field is applied); the pending-future and future
state of the client are untouched. -/
theorem c2_unsupported_feature_failfast (s : OrdersMixin) (oid : Nat) (p : OpenOrderParams)
    (msg : Msg) :
    (∀ st1 n rest,
      openOrderPhase1 { order := openOrderEntry s oid p, msg := msg } = (st1, Except.ok ()) →
      st1.msg.tokens = Token.ti n :: rest → n ≠ 0 →
      handleOpenOrder s oid p msg =
        ({ s with orders := mapInsert s.orders oid st1.order },
         { st1.msg with tokens := rest },
         some (DecodeErr.unsupportedFeature ("combo legs")))) ∧
    (∀ st1 n rest,
      openOrderPhase1 { order := openOrderEntry s oid p, msg := msg } = (st1, Except.ok ()) →
      st1.msg.tokens = Token.ti 0 :: Token.ti n :: rest → n ≠ 0 →
      handleOpenOrder s oid p msg =
        ({ s with orders := mapInsert s.orders oid st1.order },
         { st1.msg with tokens := rest },
         some (DecodeErr.unsupportedFeature ("order combo legs")))) ∧
    (∀ st1 st2 n more rest,
      openOrderPhase1 { order := openOrderEntry s oid p, msg := msg } = (st1, Except.ok ()) →
      st1.msg.tokens = Token.ti 0 :: Token.ti 0 :: more →
      openOrderPhase2 { order := st1.order, msg := { st1.msg with tokens := more } } =
        (st2, Except.ok ()) →
      st2.msg.tokens = Token.ti n :: rest → n ≠ 0 →
      ProtocolVersion.PEGGED_TO_BENCHMARK ≤ st2.msg.pv →
      handleOpenOrder s oid p msg =
        ({ s with orders := mapInsert s.orders oid st2.order },
         { st2.msg with tokens := rest },
         some (DecodeErr.unsupportedFeature ("order conditions")))) := by
  refine ⟨?_, ?_, ?_⟩
  · intro st1 n rest h1 h2 hn
    have hcombo : comboLegsCheck st1 =
        ({ st1 with msg := { st1.msg with tokens := rest } },
         Except.error (DecodeErr.unsupportedFeature ("combo legs"))) := by
      unfold comboLegsCheck
      rw [DecM.bind_ok (rdInt_cons st1 n rest h2), if_pos hn]
      rfl
    unfold handleOpenOrder decodeOpenOrderTail
    rw [DecM.bind_ok h1]
    try dsimp only
    rw [DecM.bind_err hcombo]
  · intro st1 n rest h1 h2 hn
    have hc1 : comboLegsCheck st1 =
        ({ st1 with msg := { st1.msg with tokens := Token.ti n :: rest } }, Except.ok ()) := by
      unfold comboLegsCheck
      rw [DecM.bind_ok (rdInt_cons st1 0 (Token.ti n :: rest) h2),
        if_neg (by decide : ¬((0 : Int) ≠ 0))]
      rfl
    have hc2 : orderComboLegsCheck
        { st1 with msg := { st1.msg with tokens := Token.ti n :: rest } } =
        ({ st1 with msg := { st1.msg with tokens := rest } },
         Except.error (DecodeErr.unsupportedFeature ("order combo legs"))) := by
      unfold orderComboLegsCheck
      rw [DecM.bind_ok (rdInt_cons _ n rest rfl), if_pos hn]
      rfl
    unfold handleOpenOrder decodeOpenOrderTail
    rw [DecM.bind_ok h1]
    try dsimp only
    rw [DecM.bind_ok hc1]
    try dsimp only
    rw [DecM.bind_err hc2]
  · intro st1 st2 n more rest h1 h2 h3 h4 hn hpv
    have hc1 : comboLegsCheck st1 =
        ({ st1 with msg := { st1.msg with tokens := Token.ti 0 :: more } }, Except.ok ()) := by
      unfold comboLegsCheck
      rw [DecM.bind_ok (rdInt_cons st1 0 (Token.ti 0 :: more) h2),
        if_neg (by decide : ¬((0 : Int) ≠ 0))]
      rfl
    have hc2 : orderComboLegsCheck
        { st1 with msg := { st1.msg with tokens := Token.ti 0 :: more } } =
        ({ st1 with msg := { st1.msg with tokens := more } }, Except.ok ()) := by
      unfold orderComboLegsCheck
      rw [DecM.bind_ok (rdInt_cons _ 0 more rfl),
        if_neg (by decide : ¬((0 : Int) ≠ 0))]
      rfl
    have hcond : orderConditionsCheck st2 =
        ({ st2 with msg := { st2.msg with tokens := rest } },
         Except.error (DecodeErr.unsupportedFeature ("order conditions"))) := by
      unfold orderConditionsCheck
      rw [DecM.bind_ok (rdIntG_pv_cons ProtocolVersion.PEGGED_TO_BENCHMARK st2 n rest hpv h4),
        if_pos hn]
      rfl
    unfold handleOpenOrder decodeOpenOrderTail
    rw [DecM.bind_ok h1]
    try dsimp only
    rw [DecM.bind_ok hc1]
    try dsimp only
    rw [DecM.bind_ok hc2]
    try dsimp only
    rw [DecM.bind_ok h3]
    try dsimp only
    rw [DecM.bind_err hcond]

/-- The order object `_handle_open_order` starts from when a fresh client
receives an open-order push for the unknown id 7 with default decoded
parameters. -/
def exEntry7 : Order := openOrderEntry initClient 7 exParams0

/-- An open-order message whose combo-legs presence count is 3 (with a
leftover token after it). -/
def exMsgA : Msg :=
  { tokens := phase1MinTokens ++ [Token.ti 3, Token.ts ("junk")], pv := 112, mv := 34 }

/-- The decode state right before the combo-legs count of `exMsgA`. -/
def exSt1A : DecSt :=
  { order := phase1MinApply exEntry7,
    msg := { tokens := [Token.ti 3, Token.ts ("junk")], pv := 112, mv := 34 } }

/-- An open-order message whose combo-legs count is 0 and whose
order-combo-legs count is 4. -/
def exMsgB : Msg :=
  { tokens := phase1MinTokens ++ [Token.ti 0, Token.ti 4], pv := 112, mv := 34 }

/-- The decode state right before the combo-legs count of `exMsgB`. -/
def exSt1B : DecSt :=
  { order := phase1MinApply exEntry7,
    msg := { tokens := [Token.ti 0, Token.ti 4], pv := 112, mv := 34 } }

/-- An open-order message whose combo counts are 0 and whose
order-conditions count is 2. -/
def exMsgC : Msg :=
  { tokens :=
      phase1MinTokens ++
        (Token.ti 0 :: (Token.ti 0 :: (phase2aMinTokens ++ [Token.ti 2])))
    pv := 112
    mv := 34 }

/-- The decode state right before the combo-legs count of `exMsgC`. -/
def exSt1C : DecSt :=
  { order := phase1MinApply exEntry7,
    msg := { tokens := Token.ti 0 :: (Token.ti 0 :: (phase2aMinTokens ++ [Token.ti 2])),
             pv := 112, mv := 34 } }

/-- The decode state right before the order-conditions count of `exMsgC`. -/
def exSt2C : DecSt :=
  { order := phase2aMinApply (phase1MinApply exEntry7),
    msg := { tokens := [Token.ti 2], pv := 112, mv := 34 } }

/-- C2 witness: the three fail-fast statements evaluated on concrete
messages: a combo-legs count of 3, an order-combo-legs count of 4, and an
order-conditions count of 2, each delivered to a fresh client for id 7. -/
theorem c2_witness :
    (handleOpenOrder initClient 7 exParams0 exMsgA =
      ({ initClient with orders := mapInsert initClient.orders 7 exSt1A.order },
       { exSt1A.msg with tokens := [Token.ts ("junk")] },
       some (DecodeErr.unsupportedFeature ("combo legs")))) ∧
    (handleOpenOrder initClient 7 exParams0 exMsgB =
      ({ initClient with orders := mapInsert initClient.orders 7 exSt1B.order },
       { exSt1B.msg with tokens := [] },
       some (DecodeErr.unsupportedFeature ("order combo legs")))) ∧
    (handleOpenOrder initClient 7 exParams0 exMsgC =
      ({ initClient with orders := mapInsert initClient.orders 7 exSt2C.order },
       { exSt2C.msg with tokens := [] },
       some (DecodeErr.unsupportedFeature ("order conditions")))) :=
  ⟨(c2_unsupported_feature_failfast initClient 7 exParams0 exMsgA).1 exSt1A 3
      [Token.ts ("junk")] (phase1_min exEntry7 [Token.ti 3, Token.ts ("junk")]) rfl
      (by decide),
   (c2_unsupported_feature_failfast initClient 7 exParams0 exMsgB).2.1 exSt1B 4 []
      (phase1_min exEntry7 [Token.ti 0, Token.ti 4]) rfl (by decide),
   (c2_unsupported_feature_failfast initClient 7 exParams0 exMsgC).2.2 exSt1C exSt2C 2
      (phase2aMinTokens ++ [Token.ti 2]) []
      (phase1_min exEntry7 (Token.ti 0 :: (Token.ti 0 :: (phase2aMinTokens ++ [Token.ti 2]))))
      rfl rfl rfl (by decide) (by decide)⟩

theorem handleOrderStatus_orphan (s : OrdersMixin) (fid oid : Nat) (a : StatusArgs)
    (h : OrphanPending s fid) : OrphanPending (handleOrderStatus s oid a) fid := by
  obtain ⟨hf, hsub, hlt⟩ := h
  unfold handleOrderStatus
  cases ho : s.orders oid with
  | none => exact ⟨hf, hsub, hlt⟩
  | some o0 =>
    dsimp only
    cases hsf : s.submitted_future oid with
    | none => exact ⟨hf, hsub, hlt⟩
    | some fid2 =>
      have hne : fid2 ≠ fid := fun he => hsub oid (by rw [hsf, he])
      refine ⟨?_, ?_, hlt⟩
      · show mapInsert s.futures fid2 _ fid = _
        rw [mapInsert_ne _ _ (Ne.symm hne)]
        exact hf
      · intro k
        show mapErase s.submitted_future oid k ≠ some fid
        by_cases hk : k = oid
        · rw [hk, mapErase_self]
          exact fun he => Option.noConfusion he
        · rw [mapErase_ne _ hk]
          exact hsub k

theorem handleOpenOrder_orphan (s : OrdersMixin) (fid oid : Nat) (p : OpenOrderParams)
    (m : Msg) (h : OrphanPending s fid) : OrphanPending (handleOpenOrder s oid p m).1 fid := by
  obtain ⟨hf, hsub, hlt⟩ := h
  unfold handleOpenOrder
  cases hdec : decodeOpenOrderTail { order := openOrderEntry s oid p, msg := m } with
  | mk st res =>
    cases res with
    | error e => exact ⟨hf, hsub, hlt⟩
    | ok u =>
      dsimp only
      cases hsf : s.submitted_future oid with
      | none => exact ⟨hf, hsub, hlt⟩
      | some fid2 =>
        have hne : fid2 ≠ fid := fun he => hsub oid (by rw [hsf, he])
        refine ⟨?_, ?_, hlt⟩
        · show mapInsert s.futures fid2 _ fid = _
          rw [mapInsert_ne _ _ (Ne.symm hne)]
          exact hf
        · intro k
          show mapErase s.submitted_future oid k ≠ some fid
          by_cases hk : k = oid
          · rw [hk, mapErase_self]
            exact fun he => Option.noConfusion he
          · rw [mapErase_ne _ hk]
            exact hsub k

theorem handleErrMsg_orphan (s : OrdersMixin) (fid rid : Nat) (c : Int) (m : String)
    (h : OrphanPending s fid) : OrphanPending (handleErrMsg s rid c m) fid := by
  obtain ⟨hf, hsub, hlt⟩ := h
  unfold handleErrMsg
  cases hsf : s.submitted_future rid with
  | none => exact ⟨hf, hsub, hlt⟩
  | some fid2 =>
    have hne : fid2 ≠ fid := fun he => hsub rid (by rw [hsf, he])
    refine ⟨?_, ?_, hlt⟩
    · show mapInsert s.futures fid2 _ fid = _
      rw [mapInsert_ne _ _ (Ne.symm hne)]
      exact hf
    · intro k
      show mapErase s.submitted_future rid k ≠ some fid
      by_cases hk : k = rid
      · rw [hk, mapErase_self]
        exact fun he => Option.noConfusion he
      · rw [mapErase_ne _ hk]
        exact hsub k

theorem place_order_orphan (s : OrdersMixin) (o : Order) (fid : Nat)
    (h : OrphanPending s fid) : OrphanPending (place_order s o).1 fid := by
  obtain ⟨hf, hsub, hlt⟩ := h
  refine ⟨?_, ?_, ?_⟩
  · show mapInsert s.futures s.next_fid FutureState.pending fid = _
    rw [mapInsert_ne _ _ (Nat.ne_of_lt hlt)]
    exact hf
  · intro k
    show mapInsert s.submitted_future (assignOrderId s o).order_id s.next_fid k ≠ some fid
    by_cases hk : k = (assignOrderId s o).order_id
    · rw [hk, mapInsert_self]
      intro he
      exact Nat.ne_of_lt hlt (Option.some.inj he).symm
    · rw [mapInsert_ne _ _ hk]
      exact hsub k
  · show fid < s.next_fid + 1
    exact Nat.lt_succ_of_lt hlt

theorem applyOp_orphan (s : OrdersMixin) (fid : Nat) (op : ClientOp)
    (h : OrphanPending s fid) : OrphanPending (applyOp s op) fid := by
  cases op with
  | statusPush oid a => exact handleOrderStatus_orphan s fid oid a h
  | openOrderPush oid p m => exact handleOpenOrder_orphan s fid oid p m h
  | errPush rid c m => exact handleErrMsg_orphan s fid rid c m h
  | nextValidIdPush n => exact h
  | placeCall o => exact place_order_orphan s o fid h

theorem runOps_orphan (ops : List ClientOp) (s : OrdersMixin) (fid : Nat)
    (h : OrphanPending s fid) : OrphanPending (runOps s ops) fid := by
  induction ops generalizing s with
  | nil => exact h
  | cons op ops ih => exact ih (applyOp s op) (applyOp_orphan s fid op h)

/-- C10: `place_order` allocates a fresh id only when the order's id is
falsy (zero) and unconditionally overwrites both the order-map entry and
the pending-future entry for the id it uses; a second call that reuses an
id with a still-pending future replaces the stored order and registers a
fresh future under that id, and the first caller's future — still pending
but no longer reachable from the map — can never be resolved or failed by
any further sequence of pushes or calls. -/
theorem c10_place_order_overwrite (s : OrdersMixin) (o1 o2 : Order)
    (hwf : ∀ k fid, s.submitted_future k = some fid → fid < s.next_fid)
    (hreuse : (place_order (place_order s o1).1 o2).2.1 = (place_order s o1).2.1) :
    ((place_order s o1).2.1 = if o1.order_id = 0 then s.next_order_id else o1.order_id) ∧
    ((place_order s o1).1.orders (place_order s o1).2.1 = some (assignOrderId s o1)) ∧
    ((place_order s o1).1.submitted_future (place_order s o1).2.1 = some s.next_fid) ∧
    ((place_order (place_order s o1).1 o2).1.submitted_future (place_order s o1).2.1 =
      some (s.next_fid + 1)) ∧
    (s.next_fid + 1 ≠ s.next_fid) ∧
    ((place_order (place_order s o1).1 o2).1.orders (place_order s o1).2.1 =
      some (assignOrderId (place_order s o1).1 o2)) ∧
    ((place_order (place_order s o1).1 o2).1.futures s.next_fid = some FutureState.pending) ∧
    (∀ ops, (runOps (place_order (place_order s o1).1 o2).1 ops).futures s.next_fid =
      some FutureState.pending) := by
  have hkey : (assignOrderId (place_order s o1).1 o2).order_id =
      (assignOrderId s o1).order_id := hreuse
  have horph : OrphanPending (place_order (place_order s o1).1 o2).1 s.next_fid := by
    refine ⟨?_, ?_, ?_⟩
    · show mapInsert (mapInsert s.futures s.next_fid FutureState.pending) (s.next_fid + 1)
          FutureState.pending s.next_fid = some FutureState.pending
      rw [mapInsert_ne _ _ (by omega : s.next_fid ≠ s.next_fid + 1), mapInsert_self]
    · intro k
      show mapInsert (mapInsert s.submitted_future (assignOrderId s o1).order_id s.next_fid)
          (assignOrderId (place_order s o1).1 o2).order_id (s.next_fid + 1) k ≠
        some s.next_fid
      rw [hkey]
      by_cases hk : k = (assignOrderId s o1).order_id
      · rw [hk, mapInsert_self]
        intro he
        exact absurd (Option.some.inj he) (by omega)
      · rw [mapInsert_ne _ _ hk, mapInsert_ne _ _ hk]
        intro he
        exact absurd (hwf k s.next_fid he) (lt_irrefl _)
    · show s.next_fid < s.next_fid + 1 + 1
      omega
  refine ⟨?_, mapInsert_self _ _ _, mapInsert_self _ _ _, ?_, by omega, ?_, horph.1, ?_⟩
  · by_cases h : o1.order_id = 0 <;>
      simp [place_order, runPlaceSteps, placeOrderSteps, applyPlaceStep, assignOrderId, h]
  · show mapInsert (mapInsert s.submitted_future (assignOrderId s o1).order_id s.next_fid)
        (assignOrderId (place_order s o1).1 o2).order_id (s.next_fid + 1)
        ((assignOrderId s o1).order_id) = some (s.next_fid + 1)
    rw [hkey, mapInsert_self]
  · show mapInsert (mapInsert s.orders (assignOrderId s o1).order_id (assignOrderId s o1))
        (assignOrderId (place_order s o1).1 o2).order_id
        (assignOrderId (place_order s o1).1 o2)
        ((assignOrderId s o1).order_id) = some (assignOrderId (place_order s o1).1 o2)
    rw [hkey, mapInsert_self]
  · intro ops
    exact (runOps_orphan ops _ s.next_fid horph).1

/-- C10 witness: the overwrite statement at the fresh client with two fresh
orders (both allocate id 1 with no intervening next-valid-id push, so the
second call reuses the first call's id), evaluated down to a concrete
subsequent operation sequence that still leaves future 0 pending. -/
theorem c10_witness :
    ((place_order initClient Order.default).2.1 =
      if Order.default.order_id = 0 then initClient.next_order_id else Order.default.order_id) ∧
    ((place_order initClient Order.default).1.orders (place_order initClient Order.default).2.1 =
      some (assignOrderId initClient Order.default)) ∧
    ((place_order initClient Order.default).1.submitted_future
        (place_order initClient Order.default).2.1 = some initClient.next_fid) ∧
    ((place_order (place_order initClient Order.default).1 Order.default).1.submitted_future
        (place_order initClient Order.default).2.1 = some (initClient.next_fid + 1)) ∧
    (initClient.next_fid + 1 ≠ initClient.next_fid) ∧
    ((place_order (place_order initClient Order.default).1 Order.default).1.orders
        (place_order initClient Order.default).2.1 =
      some (assignOrderId (place_order initClient Order.default).1 Order.default)) ∧
    ((place_order (place_order initClient Order.default).1 Order.default).1.futures
        initClient.next_fid = some FutureState.pending) ∧
    ((runOps (place_order (place_order initClient Order.default).1 Order.default).1
        [ClientOp.statusPush 1 exStatusArgs, ClientOp.errPush 1 5 ("rejected"),
         ClientOp.placeCall Order.default]).futures initClient.next_fid =
      some FutureState.pending) := by
  have h := c10_place_order_overwrite initClient Order.default Order.default
    (fun _ _ he => Option.noConfusion he) rfl
  exact ⟨h.1, h.2.1, h.2.2.1, h.2.2.2.1, h.2.2.2.2.1, h.2.2.2.2.2.1, h.2.2.2.2.2.2.1,
    h.2.2.2.2.2.2.2 [ClientOp.statusPush 1 exStatusArgs, ClientOp.errPush 1 5 ("rejected"),
      ClientOp.placeCall Order.default]⟩

/-- C8: the declarative subscription diff is idempotent — setting the
declared tick-type set from inactive sends exactly one subscribe with
that set; setting it again to the set last sent sends nothing (so two
identical sets in a row yield exactly one subscribe); changing it to a
different non-empty set sends exactly one resubscribe carrying exactly
the current set on the active request id; emptying it while active sends
exactly one unsubscribe for the active id. -/
theorem c8_idempotent_resubscription (st : SubscriptionState) (rid rid2 r : Nat)
    (want want2 : Finset Nat) :
    (st.active_request_id = none → want ≠ ∅ →
      updateSubscription st rid want =
        ({ active_request_id := some rid, last_sent_tick_types := want },
         [MDOut.reqMktData rid want false false])) ∧
    (st.active_request_id = some r → st.last_sent_tick_types = want → want ≠ ∅ →
      updateSubscription st rid want = (st, [])) ∧
    (st.active_request_id = some r → st.last_sent_tick_types ≠ want2 → want2 ≠ ∅ →
      updateSubscription st rid want2 =
        ({ active_request_id := some r, last_sent_tick_types := want2 },
         [MDOut.reqMktData r want2 false false])) ∧
    (st.active_request_id = some r →
      updateSubscription st rid ∅ =
        ({ active_request_id := none, last_sent_tick_types := ∅ }, [MDOut.cancelMktData r])) ∧
    (want ≠ ∅ → (updateSubscription (updateSubscription st rid want).1 rid2 want).2 = []) := by
  refine ⟨?_, ?_, ?_, ?_, ?_⟩
  · intro h1 h2
    simp [updateSubscription, h1, h2]
  · intro h1 h2 h3
    simp [updateSubscription, h1, h2, h3]
  · intro h1 h2 h3
    simp [updateSubscription, h1, h2, h3]
  · intro h1
    simp [updateSubscription, h1]
  · intro h2
    cases h : st.active_request_id with
    | none => simp [updateSubscription, h, h2]
    | some r0 =>
      by_cases hl : st.last_sent_tick_types = want
      · simp [updateSubscription, h, h2, hl]
      · simp [updateSubscription, h, h2, hl]

/-- C8 witness: the idempotence statement on concrete states — declaring
`{100, 101}` from inactive subscribes once; declaring it again sends
nothing; declaring `{100}` resubscribes once with `{100}`; declaring the
empty set unsubscribes request 43 once. -/
theorem c8_witness :
    (updateSubscription {} 43 {100, 101} =
      ({ active_request_id := some 43, last_sent_tick_types := {100, 101} },
       [MDOut.reqMktData 43 {100, 101} false false])) ∧
    (updateSubscription
        { active_request_id := some 43, last_sent_tick_types := {100, 101} } 44 {100, 101} =
      ({ active_request_id := some 43, last_sent_tick_types := {100, 101} }, [])) ∧
    (updateSubscription
        { active_request_id := some 43, last_sent_tick_types := {100, 101} } 44 {100} =
      ({ active_request_id := some 43, last_sent_tick_types := {100} },
       [MDOut.reqMktData 43 {100} false false])) ∧
    (updateSubscription { active_request_id := some 43, last_sent_tick_types := {100} } 44 ∅ =
      ({ active_request_id := none, last_sent_tick_types := ∅ }, [MDOut.cancelMktData 43])) ∧
    ((updateSubscription (updateSubscription {} 43 {100, 101}).1 44 {100, 101}).2 = []) :=
  ⟨(c8_idempotent_resubscription {} 43 44 43 {100, 101} {100}).1 rfl (by decide),
   (c8_idempotent_resubscription
      { active_request_id := some 43, last_sent_tick_types := {100, 101} } 44 44 43
      {100, 101} {100}).2.1 rfl rfl (by decide),
   (c8_idempotent_resubscription
      { active_request_id := some 43, last_sent_tick_types := {100, 101} } 44 44 43
      {100, 101} {100}).2.2.1 rfl (by decide) (by decide),
   (c8_idempotent_resubscription
      { active_request_id := some 43, last_sent_tick_types := {100} } 44 44 43
      {100, 101} {100}).2.2.2.1 rfl,
   (c8_idempotent_resubscription {} 43 44 43 {100, 101} {100}).2.2.2.2 (by decide)⟩

/-- C9: requesting market data with the regulatory-snapshot flag while the
negotiated protocol version is below the required floor fails
synchronously with the stale-version error: the call returns the error
and can produce no subscription state or wire messages at all. -/
theorem c9_regulatory_snapshot_gate (version : Nat) (st : SubscriptionState) (nextRid : Nat)
    (ticks : Finset Nat) (h : version < ProtocolVersion.REGULATORY_SNAPSHOT) :
    get_market_data version st nextRid ticks true = Except.error MDError.outdatedServer ∧
    ∀ st2 msgs, get_market_data version st nextRid ticks true ≠ Except.ok (st2, msgs) := by
  have he : get_market_data version st nextRid ticks true =
      Except.error MDError.outdatedServer := by
    simp [get_market_data, h]
  refine ⟨he, fun st2 msgs hok => ?_⟩
  rw [he] at hok
  exact Except.noConfusion hok

/-- C9 witness: a regulatory-snapshot request at the minimum client
version fails with the stale-version error and produces no ok result. -/
theorem c9_witness :
    get_market_data ProtocolVersion.MIN_CLIENT {} 43 {100, 101} true =
      Except.error MDError.outdatedServer ∧
    get_market_data ProtocolVersion.MIN_CLIENT {} 43 {100, 101} true ≠
      Except.ok ({}, []) :=
  ⟨(c9_regulatory_snapshot_gate ProtocolVersion.MIN_CLIENT {} 43 {100, 101} (by decide)).1,
   (c9_regulatory_snapshot_gate ProtocolVersion.MIN_CLIENT {} 43 {100, 101} (by decide)).2
     {} []⟩
